import Mathlib

/-!
# Writing-prompt tracker: storage and request handlers

A shallow embedding of `main.go`.  The SQLite file is a value of type `DB`
(each table is either absent or a list of rows in rowid order), every
`db.Exec` / `db.Query` is a pure function on that value, and every HTTP
handler returns the list of things it did to the response writer together
with the database it leaves behind.

Conventions of the embedding:
* `CURRENT_TIMESTAMP` is evaluated by the database engine; the value it
  yields for a statement is passed in as `now`.
* rowids are mathematical integers; the engine's 64-bit rowid ceiling is
  not represented.
* Go's `int` is 64 bits wide (`intSize`).
* The only storage failure represented is the engine's `no such table`.
-/

set_option linter.dupNamespace false

deriving instance DecidableEq for Except

namespace Chainsaw

/-! ## Data model -/

/-- Go struct `Prompt`: one listed prompt. -/
structure Prompt where
  ID : Int
  Prompt : String
  Timestamp : String
  deriving DecidableEq, Repr

/-- Go struct `Words`: one listed word-count sample. -/
structure Words where
  ID : Int
  WordCount : Int
  Timestamp : String
  deriving DecidableEq, Repr

/-- One row of table `prompts` as declared in `initDB`:
`id INTEGER PRIMARY KEY AUTOINCREMENT, prompt TEXT NOT NULL,
timestamp DATETIME DEFAULT CURRENT_TIMESTAMP, completed BOOLEAN NOT NULL DEFAULT 0`. -/
structure PromptRow where
  id : Int
  prompt : String
  timestamp : String
  completed : Bool
  deriving DecidableEq, Repr

/-- Table `prompts`: its rows in rowid order and the AUTOINCREMENT counter
(the largest rowid ever handed out, kept by the engine in `sqlite_sequence`). -/
structure PromptsTable where
  rows : List PromptRow
  seq : Int
  deriving DecidableEq, Repr

/-- Modelled from the spec: the `CREATE TABLE` statement of `WritingSession` is
not in the repository; only the columns `id`, `wordcount`, `timestamp` named by
the queries are.  Per the spec a sample has an auto-assigned unique identifier,
an integer word count and a server-assigned default timestamp. -/
structure SessionRow where
  id : Int
  wordcount : Int
  timestamp : String
  deriving DecidableEq, Repr

/-- The database file `./prompts.db`: each table is absent (`none`) or present. -/
structure DB where
  prompts : Option PromptsTable
  sessions : Option (List SessionRow)
  deriving DecidableEq, Repr

/-- A database file with no table at all (what `sql.Open` yields on first start). -/
def DB.empty : DB := { prompts := none, sessions := none }

/-- Rows of table `prompts`, none when the table is absent. -/
def DB.promptRows (db : DB) : List PromptRow :=
  match db.prompts with
  | none => []
  | some t => t.rows

/-- Rows of table `WritingSession`, none when the table is absent. -/
def DB.sessionRows (db : DB) : List SessionRow :=
  match db.sessions with
  | none => []
  | some rows => rows

/-- Largest value in a list of rowids, 0 for the empty list. -/
def maxRowid (ids : List Int) : Int := ids.foldl max 0

/-! ## Storage functions -/

/-- The engine's error text for a statement naming an absent table. -/
def noSuchTable (name : String) : String := "no such table: " ++ name

/-- Go `initDB`: `CREATE TABLE IF NOT EXISTS prompts (...)`.  Only table
`prompts` is named by the statement. -/
def initDB (db : DB) : Except String DB :=
  match db.prompts with
  | some _ => .ok db
  | none => .ok { db with prompts := some { rows := [], seq := 0 } }

/-- Rowid given to the next row of an AUTOINCREMENT table: one more than the
largest rowid that ever existed in it. -/
def PromptsTable.nextId (t : PromptsTable) : Int :=
  max t.seq (maxRowid (t.rows.map PromptRow.id)) + 1

/-- Go `addPrompt`: `INSERT INTO prompts (prompt) VALUES (?)`.  The other
columns take their defaults: fresh rowid, `CURRENT_TIMESTAMP`, `completed = 0`. -/
def addPrompt (db : DB) (now : String) (promptText : String) : Except String DB :=
  match db.prompts with
  | none => .error (noSuchTable "prompts")
  | some t =>
    let row : PromptRow :=
      { id := t.nextId, prompt := promptText, timestamp := now, completed := false }
    .ok { db with prompts := some { rows := t.rows ++ [row], seq := t.nextId } }

/-- The three columns `id, prompt, timestamp` scanned into a `Prompt`. -/
def PromptRow.scan (r : PromptRow) : Prompt :=
  { ID := r.id, Prompt := r.prompt, Timestamp := r.timestamp }

/-- Go `getUncompletedPrompts`:
`SELECT id, prompt, timestamp FROM prompts WHERE completed = 0`. -/
def getUncompletedPrompts (db : DB) : Except String (List Prompt) :=
  match db.prompts with
  | none => .error (noSuchTable "prompts")
  | some t => .ok ((t.rows.filter (fun r => r.completed == false)).map PromptRow.scan)

/-- Go `completePrompt`: `UPDATE prompts SET completed = 1 WHERE id = ?`. -/
def completePrompt (db : DB) (id : Int) : Except String DB :=
  match db.prompts with
  | none => .error (noSuchTable "prompts")
  | some t =>
    let rows := t.rows.map (fun r => if r.id = id then { r with completed := true } else r)
    .ok { db with prompts := some { t with rows := rows } }

/-- Go `getCompletedPrompts`:
`SELECT id, prompt, timestamp FROM prompts WHERE completed = 1`. -/
def getCompletedPrompts (db : DB) : Except String (List Prompt) :=
  match db.prompts with
  | none => .error (noSuchTable "prompts")
  | some t => .ok ((t.rows.filter (fun r => r.completed == true)).map PromptRow.scan)

/-- The three columns `id, wordcount, timestamp` scanned into a `Words`. -/
def SessionRow.scan (r : SessionRow) : Words :=
  { ID := r.id, WordCount := r.wordcount, Timestamp := r.timestamp }

/-- Go `getWordCount`: `SELECT id, wordcount, timestamp FROM WritingSession`. -/
def getWordCount (db : DB) : Except String (List Words) :=
  match db.sessions with
  | none => .error (noSuchTable "WritingSession")
  | some rows => .ok (rows.map SessionRow.scan)

/-- Go `addWordCount`: `INSERT INTO WritingSession (WordCount) VALUES (?)`.
The identifier is auto-assigned (one past the largest present) and the
timestamp takes the server default. -/
def addWordCount (db : DB) (now : String) (wordCount : Int) : Except String DB :=
  match db.sessions with
  | none => .error (noSuchTable "WritingSession")
  | some rows =>
    let row : SessionRow :=
      { id := maxRowid (rows.map SessionRow.id) + 1, wordcount := wordCount, timestamp := now }
    .ok { db with sessions := some (rows ++ [row]) }

/-! ## `strconv.Atoi` (Go standard library, base 10, 64-bit `int`) -/

/-- Width of Go's `int` (`strconv.IntSize`). -/
def intSize : Nat := 64

/-- The two causes carried by a `*strconv.NumError`: `ErrSyntax` and `ErrRange`. -/
inductive NumErr where
  | invalid
  | outOfRange
  deriving DecidableEq, Repr

/-- Text of the cause, as `ErrSyntax.Error()` and `ErrRange.Error()` give it. -/
def NumErr.cause : NumErr → String
  | .invalid => "invalid syntax"
  | .outOfRange => "value out of range"

/-- Text of the `*NumError` returned by `Atoi` for input `s`.  The input is
shown between double quotes; the escaping `strconv.Quote` applies to quotes,
backslashes and unprintable bytes is not reproduced. -/
def NumErr.text (e : NumErr) (s : String) : String :=
  "strconv.Atoi: parsing \"" ++ s ++ "\": " ++ e.cause

/-- Byte test `'0' <= c && c <= '9'`. -/
def isDigit (c : Char) : Bool := decide ('0' ≤ c) && decide (c ≤ '9')

/-- Value `c - '0'` of a digit byte. -/
def digitVal (c : Char) : Nat := c.toNat - 48

/-- Largest `uint64`. -/
def maxUint64 : Nat := 2 ^ 64 - 1

/-- Digit loop of the fast path of `Atoi`: `n = n*10 + int(ch)`, syntax error
on the first byte that is not a digit. -/
def atoiFastLoop : List Char → Nat → Except NumErr Nat
  | [], n => .ok n
  | c :: cs, n => if isDigit c then atoiFastLoop cs (n * 10 + digitVal c) else .error .invalid

/-- Digit loop of `ParseUint(s, 10, 64)`: syntax error on a byte that is not a
digit, range error as soon as the running value leaves `uint64`. -/
def parseUintLoop : List Char → Nat → Except NumErr Nat
  | [], n => .ok n
  | c :: cs, n =>
    if isDigit c then
      if n ≥ maxUint64 / 10 + 1 then .error .outOfRange
      else if n * 10 + digitVal c > maxUint64 then .error .outOfRange
      else parseUintLoop cs (n * 10 + digitVal c)
    else .error .invalid

/-- Go `strconv.ParseUint(s, 10, 64)`. -/
def parseUint (s : List Char) : Except NumErr Nat :=
  match s with
  | [] => .error .invalid
  | _ => parseUintLoop s 0

/-- Go `strconv.ParseInt(s, 10, 0)`: sign, then `ParseUint`, then the check
against `cutoff = 1 << (intSize - 1)`. -/
def parseInt (s : List Char) : Except NumErr Int :=
  match s with
  | [] => .error .invalid
  | c :: cs =>
    let neg := c == '-'
    let body := if c == '+' || c == '-' then cs else s
    match parseUint body with
    | .error .invalid => .error .invalid
    | .error .outOfRange => .error .outOfRange
    | .ok un =>
      let cutoff : Nat := 2 ^ (intSize - 1)
      if !neg && un ≥ cutoff then .error .outOfRange
      else if neg && un > cutoff then .error .outOfRange
      else .ok (if neg then -(un : Int) else (un : Int))

/-- Fast path of `Atoi`, taken when `0 < len(s) < 19`. -/
def atoiFast (s : List Char) : Except NumErr Int :=
  match s with
  | [] => .error .invalid
  | c :: cs =>
    let signed := c == '-' || c == '+'
    let body := if signed then cs else s
    if signed && body.isEmpty then .error .invalid
    else
      match atoiFastLoop body 0 with
      | .error e => .error e
      | .ok n => .ok (if c == '-' then -(n : Int) else (n : Int))

/-- Go `strconv.Atoi` on a 64-bit platform; `len(s)` counts bytes. -/
def atoi (s : String) : Except NumErr Int :=
  if 0 < s.utf8ByteSize ∧ s.utf8ByteSize < 19 then atoiFast s.toList else parseInt s.toList

/-! ## Decimal integer literals, as the specification words them -/

/-- Value of a run of decimal digits. -/
def digitsValue (ds : List Char) : Nat := ds.foldl (fun n c => n * 10 + digitVal c) 0

/-- One or more digits. -/
def allDigits (ds : List Char) : Bool := !ds.isEmpty && ds.all isDigit

/-- A decimal integer literal: an optional sign followed by one or more digits. -/
def isDecimalLiteral : List Char → Bool
  | [] => false
  | c :: cs => if c == '+' || c == '-' then allDigits cs else allDigits (c :: cs)

/-- The integer a decimal integer literal denotes. -/
def literalValue : List Char → Int
  | [] => 0
  | c :: cs =>
    if c == '-' then -(digitsValue cs : Int)
    else if c == '+' then (digitsValue cs : Int)
    else (digitsValue (c :: cs) : Int)

/-! ## Requests, responses, templates -/

/-- What a handler reads of an `*http.Request`: the method, the decoded URL
query and the decoded form body, both as key/value pairs in order. -/
structure Request where
  method : String
  query : List (String × String)
  postForm : List (String × String)
  deriving DecidableEq, Repr

/-- First value bound to `key` in a list of pairs, `""` when there is none
(`url.Values.Get`). -/
def valuesGet (vs : List (String × String)) (key : String) : String :=
  match vs.find? (fun kv => kv.1 == key) with
  | some kv => kv.2
  | none => ""

/-- Go `r.URL.Query().Get(key)`. -/
def Request.queryGet (r : Request) (key : String) : String := valuesGet r.query key

/-- Go `r.FormValue(key)` on a POST: body parameters take precedence over
URL query parameters. -/
def Request.formValue (r : Request) (key : String) : String :=
  valuesGet (r.postForm ++ r.query) key

/-- Go `http.MethodPost`. -/
def methodPost : String := "POST"

/-- Go `http.StatusSeeOther`. -/
def statusSeeOther : Nat := 303

/-- Go `http.StatusBadRequest`. -/
def statusBadRequest : Nat := 400

/-- Go `http.StatusInternalServerError`. -/
def statusInternalServerError : Nat := 500

/-- The argument handed to `tmpl.Execute`. -/
inductive PageData where
  | none
  | prompts (ps : List Prompt)
  | words (ws : List Words)
  deriving DecidableEq, Repr

/-- One thing a handler does with its `http.ResponseWriter`, in program order. -/
inductive Effect where
  /-- Call `http.Error(w, msg, code)`. -/
  | httpError (msg : String) (code : Nat)
  /-- Call `http.Redirect(w, r, url, code)`. -/
  | redirect (url : String) (code : Nat)
  /-- Call `tmpl.Execute(w, data)` on the template parsed from `file`. -/
  | execute (file : String) (data : PageData)
  /-- Call `tmpl.Execute(w, data)` with `tmpl == nil`, the value `ParseFiles`
  returns with an error; the call dereferences the nil template. -/
  | executeNil (data : PageData)
  deriving DecidableEq, Repr

/-- The template files as the handlers meet them: `parseFiles name` is the error
text of `template.ParseFiles(name)` if it fails, and `render name data` is the
error text of `tmpl.Execute(w, data)` if rendering fails. -/
structure Templates where
  parseFiles : String → Option String
  render : String → PageData → Option String

/-! ## Request handlers

Each handler returns what it did to the response writer, in order, and the
database after the request. -/

/-- Go `addPromptHandler`.  On the GET path a `ParseFiles` error is reported
and control then falls through to `tmpl.Execute` (there is no `return`). -/
def addPromptHandler (tp : Templates) (db : DB) (now : String) (r : Request) :
    List Effect × DB :=
  if r.method = methodPost then
    let prompt := r.formValue "prompt"
    match addPrompt db now prompt with
    | .error e => ([.httpError ("Could not save prompt: " ++ e) statusInternalServerError], db)
    | .ok db1 => ([.redirect "/view" statusSeeOther], db1)
  else
    match tp.parseFiles "templates/add_prompt.html" with
    | some e => ([.httpError e statusInternalServerError, .executeNil .none], db)
    | none => ([.execute "templates/add_prompt.html" .none], db)

/-- Go `viewPromptsHandler`. -/
def viewPromptsHandler (tp : Templates) (db : DB) (_r : Request) : List Effect × DB :=
  match getUncompletedPrompts db with
  | .error e =>
    ([.httpError ("Could not retrieve prompts: " ++ e) statusInternalServerError], db)
  | .ok prompts =>
    match tp.parseFiles "templates/view_prompts.html" with
    | some e => ([.httpError e statusInternalServerError], db)
    | none => ([.execute "templates/view_prompts.html" (.prompts prompts)], db)

/-- Go `completePromptHandler`. -/
def completePromptHandler (db : DB) (r : Request) : List Effect × DB :=
  let idStr := r.queryGet "id"
  if idStr = "" then ([.httpError "Missing ID" statusBadRequest], db)
  else
    match atoi idStr with
    | .error _ => ([.httpError "Invalid ID" statusBadRequest], db)
    | .ok id =>
      match completePrompt db id with
      | .error e =>
        ([.httpError ("Could not mark prompt as completed: " ++ e) statusInternalServerError], db)
      | .ok db1 => ([.redirect "/view" statusSeeOther], db1)

/-- Go `viewCompletedPromptsHandler`. -/
def viewCompletedPromptsHandler (tp : Templates) (db : DB) (_r : Request) : List Effect × DB :=
  match getCompletedPrompts db with
  | .error e =>
    ([.httpError ("Could not retrieve completed prompts: " ++ e) statusInternalServerError], db)
  | .ok prompts =>
    match tp.parseFiles "templates/view_completed_prompts.html" with
    | some e => ([.httpError e statusInternalServerError], db)
    | none => ([.execute "templates/view_completed_prompts.html" (.prompts prompts)], db)

/-- Go `addWordCountHandler`.  On the GET path a `ParseFiles` error is reported
and control then falls through to `tmpl.Execute` (there is no `return`). -/
def addWordCountHandler (tp : Templates) (db : DB) (now : String) (r : Request) :
    List Effect × DB :=
  if r.method = methodPost then
    let wordcountstr := r.formValue "wordcount"
    match atoi wordcountstr with
    | .error e =>
      ([.httpError ("Invalid word count: " ++ e.text wordcountstr) statusBadRequest], db)
    | .ok wordcount =>
      match addWordCount db now wordcount with
      | .error e => ([.httpError ("Could not save wordcount: " ++ e) statusInternalServerError], db)
      | .ok db1 => ([.redirect "/words" statusSeeOther], db1)
  else
    match tp.parseFiles "templates/word_count.html" with
    | some e => ([.httpError e statusInternalServerError, .executeNil .none], db)
    | none => ([.execute "templates/word_count.html" .none], db)

/-- Go `viewWordCountHandler`. -/
def viewWordCountHandler (tp : Templates) (db : DB) (_r : Request) : List Effect × DB :=
  match getWordCount db with
  | .error e =>
    ([.httpError ("Could not retrieve word count: " ++ e) statusInternalServerError], db)
  | .ok wordscount =>
    match tp.parseFiles "templates/word_count.html" with
    | some e => ([.httpError e statusInternalServerError], db)
    | none => ([.execute "templates/word_count.html" (.words wordscount)], db)

/-! ## Sample values used to exercise the definitions -/

/-- Templates that all load and render. -/
def okTemplates : Templates := { parseFiles := fun _ => none, render := fun _ _ => none }

/-- Templates none of which can be loaded: every `ParseFiles` call fails. -/
def missingTemplates : Templates :=
  { parseFiles := fun name => some ("open " ++ name ++ ": no such file or directory"),
    render := fun _ _ => none }

/-- Templates that load but whose rendering always fails. -/
def brokenTemplates : Templates :=
  { parseFiles := fun _ => none, render := fun _ _ => some "template: render failed" }

/-- A database right after `initDB` on an empty file plus an empty
`WritingSession` table. -/
def freshDB : DB := { prompts := some { rows := [], seq := 0 }, sessions := some [] }

/-- A database with two prompts, the first completed, and one sample. -/
def sampleDB : DB :=
  { prompts := some
      { rows := [ { id := 1, prompt := "a", timestamp := "t1", completed := true },
                  { id := 2, prompt := "b", timestamp := "t2", completed := false } ],
        seq := 2 },
    sessions := some [ { id := 1, wordcount := 100, timestamp := "t3" } ] }

/-- A POST carrying one form field. -/
def postOf (key value : String) : Request :=
  { method := "POST", query := [], postForm := [(key, value)] }

/-- A GET carrying one query parameter. -/
def getOf (key value : String) : Request :=
  { method := "GET", query := [(key, value)], postForm := [] }

/-! ## Sequences of storage calls on the prompts table -/

/-- One storage call on table `prompts`. -/
inductive PromptOp where
  | add (now text : String)
  | complete (id : Int)
  deriving DecidableEq, Repr

/-- The store after the call; a call that returns an error leaves the store as it was. -/
def PromptOp.run (db : DB) : PromptOp → DB
  | .add now text =>
    match addPrompt db now text with
    | .ok db1 => db1
    | .error _ => db
  | .complete id =>
    match completePrompt db id with
    | .ok db1 => db1
    | .error _ => db

/-- Ids present after a call that were not present before it: the prompts the
call created. -/
def createdBy (before after : DB) : List Int :=
  (after.promptRows.map PromptRow.id).filter
    (fun i => decide (i ∉ before.promptRows.map PromptRow.id))

/-- Run a sequence of calls; returns the final store and the ids of all prompts
created along the way, in order of creation. -/
def runOps : DB → List PromptOp → DB × List Int
  | db, [] => (db, [])
  | db, op :: ops =>
    let db1 := op.run db
    let rest := runOps db1 ops
    (rest.1, createdBy db db1 ++ rest.2)

/-- The row update performed by `completePrompt`. -/
def markRow (id : Int) (r : PromptRow) : PromptRow :=
  if r.id = id then { r with completed := true } else r

/-! ## The step relation of the store -/

/-- One successful storage mutation: `addPrompt`, `completePrompt` or
`addWordCount`. -/
inductive Step : DB → DB → Prop where
  | addPrompt (db db1 : DB) (now text : String) :
      addPrompt db now text = .ok db1 → Step db db1
  | completePrompt (db db1 : DB) (id : Int) :
      completePrompt db id = .ok db1 → Step db db1
  | addWordCount (db db1 : DB) (now : String) (n : Int) :
      addWordCount db now n = .ok db1 → Step db db1

/-- How a prompt row may differ from an earlier version of itself: same id,
text and timestamp, and a completed flag that is never cleared. -/
def PromptRow.evolves (r r1 : PromptRow) : Prop :=
  r1.id = r.id ∧ r1.prompt = r.prompt ∧ r1.timestamp = r.timestamp ∧
    (r.completed = true → r1.completed = true)

/-- Every row of `db` is still there in `db1`, at the same position: a prompt
row up to `PromptRow.evolves`, a word-count sample unchanged; and no table of
`db` is missing from `db1`. -/
def Persists (db db1 : DB) : Prop :=
  (∀ (i : Nat) (r : PromptRow), db.promptRows[i]? = some r →
      ∃ r1, db1.promptRows[i]? = some r1 ∧ r.evolves r1) ∧
  (∀ (i : Nat) (w : SessionRow), db.sessionRows[i]? = some w → db1.sessionRows[i]? = some w) ∧
  (db.prompts.isSome = true → db1.prompts.isSome = true) ∧
  (db.sessions.isSome = true → db1.sessions.isSome = true)

/-! ## Well-formed stores and supporting lemmas -/

/-- The `PRIMARY KEY` constraint on `prompts.id`: no two rows share an id. -/
def DB.uniqueIds (db : DB) : Prop := (db.promptRows.map PromptRow.id).Nodup

instance (db : DB) : Decidable db.uniqueIds := by
  unfold DB.uniqueIds; infer_instance

theorem foldl_max_ge_init (ids : List Int) (a : Int) : a ≤ ids.foldl max a := by
  induction ids generalizing a with
  | nil => simp
  | cons x xs ih => exact le_trans (le_max_left a x) (ih (max a x))

theorem foldl_max_ge_mem (ids : List Int) (a x : Int) (hx : x ∈ ids) : x ≤ ids.foldl max a := by
  induction ids generalizing a with
  | nil => cases hx
  | cons y ys ih =>
    rcases List.mem_cons.mp hx with h | h
    · subst h
      exact le_trans (le_max_right a x) (foldl_max_ge_init ys (max a x))
    · exact ih (max a y) h

theorem le_maxRowid (ids : List Int) (x : Int) (hx : x ∈ ids) : x ≤ maxRowid ids :=
  foldl_max_ge_mem ids 0 x hx

/-- The rowid handed out by the next insert is larger than every rowid present. -/
theorem nextId_fresh (t : PromptsTable) (row : PromptRow) (h : row ∈ t.rows) :
    row.id < t.nextId := by
  have h1 : row.id ≤ maxRowid (t.rows.map PromptRow.id) :=
    le_maxRowid _ _ (List.mem_map_of_mem PromptRow.id h)
  have h2 := le_max_right t.seq (maxRowid (t.rows.map PromptRow.id))
  unfold PromptsTable.nextId
  omega

theorem scan_ID (r : PromptRow) : r.scan.ID = r.id := rfl

theorem filter_eq_nil_of_forall {α : Type} (p : α → Bool) (l : List α)
    (h : ∀ a ∈ l, p a = false) : l.filter p = [] := by
  induction l with
  | nil => rfl
  | cons a as ih =>
    have ha := h a (List.mem_cons_self a as)
    simp only [List.filter, ha]
    exact ih (fun b hb => h b (List.mem_cons_of_mem a hb))

/-! ## C1: add a prompt, then list the pending ones -/

/-- C1. On a store whose prompts table exists, a POST to the add route with any
prompt text (the empty string included) answers with a redirect to /view and
nothing else, stores one new row with a fresh id, that text and completed =
false, and the pending listing that follows is the old pending listing with
the new prompt appended, so that it holds the new prompt exactly once. -/
theorem addPromptHandler_post_then_list (tp : Templates) (db : DB) (t : PromptsTable)
    (now text : String) (r : Request)
    (hpost : r.method = methodPost) (htext : r.formValue "prompt" = text)
    (ht : db.prompts = some t) :
    ∃ (db1 : DB) (newId : Int) (old : List Prompt),
      addPromptHandler tp db now r = ([Effect.redirect "/view" statusSeeOther], db1) ∧
      addPrompt db now text = .ok db1 ∧
      (∀ row ∈ db.promptRows, row.id ≠ newId) ∧
      db1.promptRows = db.promptRows ++
        [{ id := newId, prompt := text, timestamp := now, completed := false }] ∧
      getUncompletedPrompts db = .ok old ∧
      getUncompletedPrompts db1 =
        .ok (old ++ [{ ID := newId, Prompt := text, Timestamp := now }]) ∧
      (old ++ [({ ID := newId, Prompt := text, Timestamp := now } : Prompt)]).filter
          (fun p => decide (p.ID = newId)) =
        [{ ID := newId, Prompt := text, Timestamp := now }] ∧
      (old ++ [({ ID := newId, Prompt := text, Timestamp := now } : Prompt)]).count
          { ID := newId, Prompt := text, Timestamp := now } = 1 := by
  have hfresh : ∀ row ∈ t.rows, row.id ≠ t.nextId :=
    fun row hrow => ne_of_lt (nextId_fresh t row hrow)
  have hold : ∀ p ∈ (t.rows.filter (fun r => r.completed == false)).map PromptRow.scan,
      p.ID ≠ t.nextId := by
    intro p hp
    rcases List.mem_map.mp hp with ⟨row, hrow, rfl⟩
    exact hfresh row (List.mem_of_mem_filter hrow)
  refine ⟨DB.mk (some (PromptsTable.mk
      (t.rows ++ [PromptRow.mk t.nextId text now false]) t.nextId)) db.sessions,
    t.nextId, (t.rows.filter (fun r => r.completed == false)).map PromptRow.scan,
    ?_, ?_, ?_, ?_, ?_, ?_, ?_, ?_⟩
  · simp only [addPromptHandler, hpost, if_true, htext, addPrompt, ht]
  · simp only [addPrompt, ht]
  · simpa [DB.promptRows, ht] using hfresh
  · simp [DB.promptRows, ht]
  · simp only [getUncompletedPrompts, ht]
  · simp [getUncompletedPrompts, List.filter_append, PromptRow.scan]
  · rw [List.filter_append, filter_eq_nil_of_forall _ _ (fun p hp => by simpa using hold p hp)]
    simp
  · rw [List.count_append]
    have h0 : List.count ({ ID := t.nextId, Prompt := text, Timestamp := now } : Prompt)
        ((t.rows.filter (fun r => r.completed == false)).map PromptRow.scan) = 0 := by
      apply List.count_eq_zero_of_not_mem
      intro hmem
      exact hold _ hmem rfl
    rw [h0]
    simp

/-- C1 at a concrete store: POST prompt="" on the two-prompt sample store. -/
theorem addPromptHandler_post_then_list_witness :
    ∃ (db1 : DB) (newId : Int) (old : List Prompt),
      addPromptHandler okTemplates sampleDB "t9" (postOf "prompt" "") =
        ([Effect.redirect "/view" statusSeeOther], db1) ∧
      addPrompt sampleDB "t9" "" = .ok db1 ∧
      (∀ row ∈ sampleDB.promptRows, row.id ≠ newId) ∧
      db1.promptRows = sampleDB.promptRows ++
        [{ id := newId, prompt := "", timestamp := "t9", completed := false }] ∧
      getUncompletedPrompts sampleDB = .ok old ∧
      getUncompletedPrompts db1 =
        .ok (old ++ [{ ID := newId, Prompt := "", Timestamp := "t9" }]) ∧
      (old ++ [({ ID := newId, Prompt := "", Timestamp := "t9" } : Prompt)]).filter
          (fun p => decide (p.ID = newId)) =
        [{ ID := newId, Prompt := "", Timestamp := "t9" }] ∧
      (old ++ [({ ID := newId, Prompt := "", Timestamp := "t9" } : Prompt)]).count
          { ID := newId, Prompt := "", Timestamp := "t9" } = 1 :=
  addPromptHandler_post_then_list okTemplates sampleDB
    { rows := [ { id := 1, prompt := "a", timestamp := "t1", completed := true },
                { id := 2, prompt := "b", timestamp := "t2", completed := false } ],
      seq := 2 }
    "t9" "" (postOf "prompt" "") (by decide) (by decide) (by decide)

/-! ## C2: completing a pending prompt -/

theorem markRow_id (id : Int) (r : PromptRow) : (markRow id r).id = r.id := by
  unfold markRow; split <;> rfl

theorem markRow_scan (id : Int) (r : PromptRow) : (markRow id r).scan = r.scan := by
  unfold markRow; split <;> rfl

theorem markRow_completed (id : Int) (r : PromptRow) :
    (markRow id r).completed = (decide (r.id = id) || r.completed) := by
  unfold markRow
  by_cases h : r.id = id <;> simp [h]

theorem pending_after_mark (id : Int) (l : List PromptRow) :
    ((l.map (markRow id)).filter (fun r => r.completed == false)).map PromptRow.scan =
      ((l.filter (fun r => r.completed == false)).map PromptRow.scan).filter
        (fun p => decide (p.ID ≠ id)) := by
  induction l with
  | nil => rfl
  | cons r rs ih =>
    by_cases hid : r.id = id <;> cases hc : r.completed <;>
      simpa [List.filter_cons, markRow_completed, markRow_scan, hid, hc, scan_ID] using ih

theorem done_after_mark_others (id : Int) (l : List PromptRow) :
    (((l.map (markRow id)).filter (fun r => r.completed == true)).map PromptRow.scan).filter
        (fun p => decide (p.ID ≠ id)) =
      ((l.filter (fun r => r.completed == true)).map PromptRow.scan).filter
        (fun p => decide (p.ID ≠ id)) := by
  induction l with
  | nil => rfl
  | cons r rs ih =>
    by_cases hid : r.id = id <;> cases hc : r.completed <;>
      simpa [List.filter_cons, markRow_completed, markRow_scan, hid, hc, scan_ID] using ih

theorem done_after_mark_target (id : Int) (l : List PromptRow) :
    (((l.map (markRow id)).filter (fun r => r.completed == true)).map PromptRow.scan).filter
        (fun p => decide (p.ID = id)) =
      (l.filter (fun r => decide (r.id = id))).map PromptRow.scan := by
  induction l with
  | nil => rfl
  | cons r rs ih =>
    by_cases hid : r.id = id <;> cases hc : r.completed <;>
      simpa [List.filter_cons, markRow_completed, markRow_scan, hid, hc, scan_ID] using ih

/-- Under the primary-key constraint the rows carrying the id of `row` are `row` alone. -/
theorem filter_id_eq_singleton (l : List PromptRow) (row : PromptRow)
    (hnd : (l.map PromptRow.id).Nodup) (hmem : row ∈ l) :
    l.filter (fun r => decide (r.id = row.id)) = [row] := by
  induction l with
  | nil => cases hmem
  | cons r rs ih =>
    rw [List.map_cons, List.nodup_cons] at hnd
    rcases List.mem_cons.mp hmem with h | h
    · subst h
      have hnone : rs.filter (fun r => decide (r.id = row.id)) = [] := by
        apply filter_eq_nil_of_forall
        intro a ha
        have : a.id ≠ row.id := fun e => hnd.1 (e ▸ List.mem_map_of_mem PromptRow.id ha)
        simpa using this
      simp [List.filter_cons, hnone]
    · have hne : r.id ≠ row.id := fun e => hnd.1 (e ▸ List.mem_map_of_mem PromptRow.id h)
      simp [List.filter_cons, hne, ih hnd.2 h]

theorem completePrompt_rows (db : DB) (t : PromptsTable) (id : Int) (ht : db.prompts = some t) :
    completePrompt db id =
      .ok { db with prompts := some { t with rows := t.rows.map (markRow id) } } := by
  simp only [completePrompt, ht]
  rfl

/-- C2. On a store satisfying the primary-key constraint, completing the id of a
pending prompt succeeds; afterwards the pending listing is the old pending
listing without that id, the completed listing holds that id exactly once, as
the very prompt (same id, text, timestamp) that was pending, and the completed
listing restricted to the other ids is the old completed listing. -/
theorem completePrompt_moves_prompt (db : DB) (row : PromptRow)
    (hpk : db.uniqueIds) (hrow : row ∈ db.promptRows) (hpending : row.completed = false) :
    ∃ (db1 : DB) (u0 c0 u1 c1 : List Prompt),
      completePrompt db row.id = .ok db1 ∧
      getUncompletedPrompts db = .ok u0 ∧ getCompletedPrompts db = .ok c0 ∧
      getUncompletedPrompts db1 = .ok u1 ∧ getCompletedPrompts db1 = .ok c1 ∧
      row.scan ∈ u0 ∧
      (∀ p ∈ u1, p.ID ≠ row.id) ∧
      c1.filter (fun p => decide (p.ID = row.id)) = [row.scan] ∧
      u1 = u0.filter (fun p => decide (p.ID ≠ row.id)) ∧
      c1.filter (fun p => decide (p.ID ≠ row.id)) = c0 := by
  cases ht : db.prompts with
  | none => simp [DB.promptRows, ht] at hrow
  | some t =>
    have hrow1 : row ∈ t.rows := by simpa [DB.promptRows, ht] using hrow
    have hnd : (t.rows.map PromptRow.id).Nodup := by simpa [DB.uniqueIds, DB.promptRows, ht] using hpk
    have hc0 : ∀ p ∈ (t.rows.filter (fun r => r.completed == true)).map PromptRow.scan,
        p.ID ≠ row.id := by
      intro p hp e
      rcases List.mem_map.mp hp with ⟨r, hr, rfl⟩
      have hr1 := List.mem_of_mem_filter hr
      have hr2 : r.completed = true := by simpa using (List.mem_filter.mp hr).2
      have : r = row := List.inj_on_of_nodup_map hnd hr1 hrow1 e
      rw [this, hpending] at hr2
      cases hr2
    refine ⟨DB.mk (some (PromptsTable.mk (t.rows.map (markRow row.id)) t.seq)) db.sessions,
      (t.rows.filter (fun r => r.completed == false)).map PromptRow.scan,
      (t.rows.filter (fun r => r.completed == true)).map PromptRow.scan,
      ((t.rows.map (markRow row.id)).filter (fun r => r.completed == false)).map PromptRow.scan,
      ((t.rows.map (markRow row.id)).filter (fun r => r.completed == true)).map PromptRow.scan,
      ?_, ?_, ?_, ?_, ?_, ?_, ?_, ?_, ?_, ?_⟩
    · exact completePrompt_rows db t row.id ht
    · simp only [getUncompletedPrompts, ht]
    · simp only [getCompletedPrompts, ht]
    · simp only [getUncompletedPrompts]
    · simp only [getCompletedPrompts]
    · exact List.mem_map_of_mem PromptRow.scan
        (List.mem_filter.mpr ⟨hrow1, by simp [hpending]⟩)
    · intro p hp
      rw [pending_after_mark] at hp
      simpa using (List.mem_filter.mp hp).2
    · rw [done_after_mark_target, filter_id_eq_singleton t.rows row hnd hrow1]
      rfl
    · exact pending_after_mark row.id t.rows
    · rw [done_after_mark_others]
      exact List.filter_eq_self.mpr (fun p hp => by simpa using hc0 p hp)

/-- C2 at a concrete store: completing prompt 2 of the sample store. -/
theorem completePrompt_moves_prompt_witness :
    ∃ (db1 : DB) (u0 c0 u1 c1 : List Prompt),
      completePrompt sampleDB 2 = .ok db1 ∧
      getUncompletedPrompts sampleDB = .ok u0 ∧ getCompletedPrompts sampleDB = .ok c0 ∧
      getUncompletedPrompts db1 = .ok u1 ∧ getCompletedPrompts db1 = .ok c1 ∧
      ({ ID := 2, Prompt := "b", Timestamp := "t2" } : Prompt) ∈ u0 ∧
      (∀ p ∈ u1, p.ID ≠ 2) ∧
      c1.filter (fun p => decide (p.ID = 2)) = [{ ID := 2, Prompt := "b", Timestamp := "t2" }] ∧
      u1 = u0.filter (fun p => decide (p.ID ≠ 2)) ∧
      c1.filter (fun p => decide (p.ID ≠ 2)) = c0 :=
  completePrompt_moves_prompt sampleDB
    { id := 2, prompt := "b", timestamp := "t2", completed := false }
    (by decide) (by decide) rfl

/-! ## C3: the two listings partition the created ids -/

theorem filter_not_mem_append (l n : List Int) (h : ∀ x ∈ n, x ∉ l) :
    (l ++ n).filter (fun i => decide (i ∉ l)) = n := by
  rw [List.filter_append]
  have h1 : l.filter (fun i => decide (i ∉ l)) = [] :=
    filter_eq_nil_of_forall _ _ (fun a ha => by simpa using ha)
  have h2 : n.filter (fun i => decide (i ∉ l)) = n :=
    List.filter_eq_self.mpr (fun a ha => by simpa using h a ha)
  rw [h1, h2, List.nil_append]

/-- Effect of one call on a store whose prompts table exists: the table still
exists, the ids present grow by exactly the ids the call created, and the
primary-key constraint is kept. -/
theorem run_step (db : DB) (t : PromptsTable) (op : PromptOp)
    (ht : db.prompts = some t) (hpk : db.uniqueIds) :
    (∃ t1, (op.run db).prompts = some t1) ∧ (op.run db).uniqueIds ∧
      (op.run db).promptRows.map PromptRow.id =
        db.promptRows.map PromptRow.id ++ createdBy db (op.run db) := by
  have hnd : (t.rows.map PromptRow.id).Nodup := by
    simpa [DB.uniqueIds, DB.promptRows, ht] using hpk
  cases op with
  | add now text =>
    have hrun : (PromptOp.add now text).run db =
        DB.mk (some (PromptsTable.mk (t.rows ++ [PromptRow.mk t.nextId text now false])
          t.nextId)) db.sessions := by
      simp only [PromptOp.run, addPrompt, ht]
    have hfresh : t.nextId ∉ t.rows.map PromptRow.id := by
      intro hmem
      rcases List.mem_map.mp hmem with ⟨row, hrow, hid⟩
      exact absurd hid (ne_of_lt (nextId_fresh t row hrow))
    have hids : ((PromptOp.add now text).run db).promptRows.map PromptRow.id =
        t.rows.map PromptRow.id ++ [t.nextId] := by
      simp [hrun, DB.promptRows]
    have hcreated : createdBy db ((PromptOp.add now text).run db) = [t.nextId] := by
      unfold createdBy
      rw [hids]
      have hb : db.promptRows = t.rows := by simp [DB.promptRows, ht]
      rw [hb]
      exact filter_not_mem_append _ _ (fun x hx => by
        rw [List.mem_singleton.mp hx]; exact hfresh)
    refine ⟨⟨_, by rw [hrun]⟩, ?_, ?_⟩
    · unfold DB.uniqueIds
      rw [hids]
      exact List.Nodup.append hnd (List.nodup_singleton _)
        (fun x hx hx1 => hfresh (List.mem_singleton.mp hx1 ▸ hx))
    · rw [hcreated, hids]
      simp [DB.promptRows, ht]
  | complete id =>
    have hrun : (PromptOp.complete id).run db =
        DB.mk (some (PromptsTable.mk (t.rows.map (markRow id)) t.seq)) db.sessions := by
      simp only [PromptOp.run, completePrompt_rows db t id ht]
    have hids : ((PromptOp.complete id).run db).promptRows.map PromptRow.id =
        t.rows.map PromptRow.id := by
      simp only [hrun, DB.promptRows, List.map_map]
      exact List.map_congr_left (fun r _ => markRow_id id r)
    have hb : db.promptRows = t.rows := by simp [DB.promptRows, ht]
    have hcreated : createdBy db ((PromptOp.complete id).run db) = [] := by
      unfold createdBy
      rw [hids, hb]
      exact filter_eq_nil_of_forall _ _ (fun a ha => by simpa using ha)
    refine ⟨⟨_, by rw [hrun]⟩, ?_, ?_⟩
    · unfold DB.uniqueIds
      rw [hids]
      exact hnd
    · rw [hcreated, hids, hb, List.append_nil]

/-- Invariant of every run: table present, primary key kept, ids present are
the initial ids followed by the created ids. -/
theorem runOps_ids (ops : List PromptOp) (db : DB) (t : PromptsTable)
    (ht : db.prompts = some t) (hpk : db.uniqueIds) :
    (∃ t1, (runOps db ops).1.prompts = some t1) ∧ (runOps db ops).1.uniqueIds ∧
      (runOps db ops).1.promptRows.map PromptRow.id =
        db.promptRows.map PromptRow.id ++ (runOps db ops).2 := by
  induction ops generalizing db t with
  | nil => exact ⟨⟨t, ht⟩, hpk, by simp [runOps]⟩
  | cons op ops ih =>
    obtain ⟨⟨t1, ht1⟩, hpk1, hids1⟩ := run_step db t op ht hpk
    obtain ⟨hex, hpk2, hids2⟩ := ih (op.run db) t1 ht1 hpk1
    refine ⟨hex, hpk2, ?_⟩
    simp only [runOps]
    rw [hids2, hids1, List.append_assoc]

/-- On a store with unique ids the two listings have no id in common and
together hold exactly the ids present. -/
theorem listings_partition (db : DB) (t : PromptsTable)
    (ht : db.prompts = some t) (hpk : db.uniqueIds) :
    ∃ u c : List Prompt,
      getUncompletedPrompts db = .ok u ∧ getCompletedPrompts db = .ok c ∧
      (∀ i, i ∈ u.map Prompt.ID → i ∉ c.map Prompt.ID) ∧
      (∀ i, i ∈ db.promptRows.map PromptRow.id ↔
        (i ∈ u.map Prompt.ID ∨ i ∈ c.map Prompt.ID)) := by
  have hnd : (t.rows.map PromptRow.id).Nodup := by
    simpa [DB.uniqueIds, DB.promptRows, ht] using hpk
  refine ⟨(t.rows.filter (fun r => r.completed == false)).map PromptRow.scan,
    (t.rows.filter (fun r => r.completed == true)).map PromptRow.scan, ?_, ?_, ?_, ?_⟩
  · simp only [getUncompletedPrompts, ht]
  · simp only [getCompletedPrompts, ht]
  · intro i hu hc
    simp only [List.mem_map, List.mem_filter] at hu hc
    obtain ⟨p, ⟨r, ⟨hr, hrc⟩, rfl⟩, rfl⟩ := hu
    obtain ⟨q, ⟨r2, ⟨hr2, hrc2⟩, rfl⟩, hq⟩ := hc
    have : r2 = r := List.inj_on_of_nodup_map hnd hr2 hr hq
    subst this
    simp at hrc hrc2
    rw [hrc] at hrc2
    cases hrc2
  · intro i
    simp only [DB.promptRows, ht, List.mem_map, List.mem_filter]
    constructor
    · rintro ⟨r, hr, rfl⟩
      cases hc : r.completed
      · exact Or.inl ⟨r.scan, ⟨r, ⟨hr, by simp [hc]⟩, rfl⟩, rfl⟩
      · exact Or.inr ⟨r.scan, ⟨r, ⟨hr, by simp [hc]⟩, rfl⟩, rfl⟩
    · rintro (⟨p, ⟨r, ⟨hr, _⟩, rfl⟩, rfl⟩ | ⟨p, ⟨r, ⟨hr, _⟩, rfl⟩, rfl⟩)
      · exact ⟨r, hr, rfl⟩
      · exact ⟨r, hr, rfl⟩

/-- C3. Start from a store whose prompts table is empty and run any sequence of
addPrompt and completePrompt calls.  Both listings then succeed, no id occurs
in both, and an id occurs in one of them exactly when it is the id of a prompt
created during the run. -/
theorem listings_partition_created_ids (db0 : DB) (seq0 : Int) (ops : List PromptOp)
    (hempty : db0.prompts = some { rows := [], seq := seq0 }) :
    ∃ u c : List Prompt,
      getUncompletedPrompts (runOps db0 ops).1 = .ok u ∧
      getCompletedPrompts (runOps db0 ops).1 = .ok c ∧
      (∀ i, i ∈ u.map Prompt.ID → i ∉ c.map Prompt.ID) ∧
      (∀ i, i ∈ (runOps db0 ops).2 ↔ (i ∈ u.map Prompt.ID ∨ i ∈ c.map Prompt.ID)) := by
  have hpk0 : db0.uniqueIds := by simp [DB.uniqueIds, DB.promptRows, hempty]
  obtain ⟨⟨t1, ht1⟩, hpk1, hids⟩ := runOps_ids ops db0 _ hempty hpk0
  obtain ⟨u, c, hu, hc, hdisj, hunion⟩ := listings_partition (runOps db0 ops).1 t1 ht1 hpk1
  refine ⟨u, c, hu, hc, hdisj, ?_⟩
  intro i
  rw [← hunion i, hids]
  simp [DB.promptRows, hempty]

/-- C3 on a concrete run from the fresh store: add, add, complete 1, complete 9, add. -/
theorem listings_partition_created_ids_witness :
    ∃ u c : List Prompt,
      getUncompletedPrompts (runOps freshDB [.add "t1" "a", .add "t2" "b", .complete 1,
        .complete 9, .add "t3" ""]).1 = .ok u ∧
      getCompletedPrompts (runOps freshDB [.add "t1" "a", .add "t2" "b", .complete 1,
        .complete 9, .add "t3" ""]).1 = .ok c ∧
      (∀ i, i ∈ u.map Prompt.ID → i ∉ c.map Prompt.ID) ∧
      (∀ i, i ∈ (runOps freshDB [.add "t1" "a", .add "t2" "b", .complete 1,
        .complete 9, .add "t3" ""]).2 ↔ (i ∈ u.map Prompt.ID ∨ i ∈ c.map Prompt.ID)) :=
  listings_partition_created_ids freshDB 0 _ rfl

/-! ## C4: completing an id that no prompt has -/

/-- C4, as stated, fails on a store without the prompts table: no prompt has
id 1 there, yet the UPDATE is refused with an error. -/
theorem completePrompt_unknown_id_no_table :
    (∀ row ∈ DB.empty.promptRows, row.id ≠ 1) ∧
      completePrompt DB.empty 1 = .error "no such table: prompts" := by
  decide

/-- C4 (amended). On a store whose prompts table exists, completing an id that
no prompt has returns no error and leaves the store exactly as it was: every
row keeps its id, text, timestamp and completed flag, none is added or removed. -/
theorem completePrompt_unknown_id (db : DB) (t : PromptsTable) (id : Int)
    (ht : db.prompts = some t) (hid : ∀ row ∈ db.promptRows, row.id ≠ id) :
    completePrompt db id = .ok db := by
  have hid1 : ∀ row ∈ t.rows, row.id ≠ id := by simpa [DB.promptRows, ht] using hid
  have hrows : t.rows.map (markRow id) = t.rows := by
    conv_rhs => rw [← List.map_id t.rows]
    exact List.map_congr_left (fun r hr => by simp [markRow, hid1 r hr])
  rw [completePrompt_rows db t id ht, hrows]
  cases db
  simp only at ht
  subst ht
  rfl

/-- C4 (amended) at a concrete store: id 7 on the sample store. -/
theorem completePrompt_unknown_id_witness : completePrompt sampleDB 7 = .ok sampleDB :=
  completePrompt_unknown_id sampleDB
    { rows := [ { id := 1, prompt := "a", timestamp := "t1", completed := true },
                { id := 2, prompt := "b", timestamp := "t2", completed := false } ],
      seq := 2 }
    7 rfl (by decide)

/-! ## C9: rows persist -/

theorem evolves_refl (r : PromptRow) : r.evolves r := ⟨rfl, rfl, rfl, id⟩

theorem evolves_trans (a b c : PromptRow) (h1 : a.evolves b) (h2 : b.evolves c) :
    a.evolves c :=
  ⟨h2.1.trans h1.1, h2.2.1.trans h1.2.1, h2.2.2.1.trans h1.2.2.1,
    fun h => h2.2.2.2 (h1.2.2.2 h)⟩

theorem markRow_evolves (id : Int) (r : PromptRow) : r.evolves (markRow id r) := by
  unfold markRow
  split
  · exact ⟨rfl, rfl, rfl, fun _ => rfl⟩
  · exact evolves_refl r

theorem persists_refl (db : DB) : Persists db db :=
  ⟨fun _ r h => ⟨r, h, evolves_refl r⟩, fun _ _ h => h, id, id⟩

theorem persists_trans (a b c : DB) (h1 : Persists a b) (h2 : Persists b c) :
    Persists a c := by
  refine ⟨?_, ?_, fun h => h2.2.2.1 (h1.2.2.1 h), fun h => h2.2.2.2 (h1.2.2.2 h)⟩
  · intro i r hr
    obtain ⟨r1, hr1, e1⟩ := h1.1 i r hr
    obtain ⟨r2, hr2, e2⟩ := h2.1 i r1 hr1
    exact ⟨r2, hr2, evolves_trans r r1 r2 e1 e2⟩
  · intro i w hw
    exact h2.2.1 i w (h1.2.1 i w hw)

theorem getElem?_append_of_some {α : Type} (l k : List α) (i : Nat) (a : α)
    (h : l[i]? = some a) : (l ++ k)[i]? = some a := by
  have hlt : i < l.length := by
    by_contra hge
    rw [List.getElem?_eq_none (Nat.le_of_not_lt hge)] at h
    cases h
  rw [List.getElem?_append_left hlt]
  exact h

theorem step_persists (db db1 : DB) (h : Step db db1) : Persists db db1 := by
  cases h with
  | addPrompt now text hop =>
    cases ht : db.prompts with
    | none => simp [Chainsaw.addPrompt, ht] at hop
    | some t =>
      simp only [Chainsaw.addPrompt, ht, Except.ok.injEq] at hop
      subst hop
      refine ⟨?_, fun _ _ h => h, fun _ => rfl, id⟩
      intro i r hr
      refine ⟨r, ?_, evolves_refl r⟩
      simp only [DB.promptRows, ht] at hr ⊢
      exact getElem?_append_of_some _ _ i r hr
  | completePrompt id hop =>
    cases ht : db.prompts with
    | none => simp [Chainsaw.completePrompt, ht] at hop
    | some t =>
      rw [completePrompt_rows db t id ht] at hop
      simp only [Except.ok.injEq] at hop
      subst hop
      refine ⟨?_, fun _ _ h => h, fun _ => rfl, fun h => h⟩
      intro i r hr
      simp only [DB.promptRows, ht] at hr ⊢
      refine ⟨markRow id r, ?_, markRow_evolves id r⟩
      rw [List.getElem?_map, hr]
      rfl
  | addWordCount now n hop =>
    cases hs : db.sessions with
    | none => simp [Chainsaw.addWordCount, hs] at hop
    | some rows =>
      simp only [Chainsaw.addWordCount, hs, Except.ok.injEq] at hop
      subst hop
      refine ⟨fun _ r h => ⟨r, h, evolves_refl r⟩, ?_, id, fun _ => rfl⟩
      intro i w hw
      simp only [DB.sessionRows, hs] at hw ⊢
      exact getElem?_append_of_some _ _ i w hw

/-- C9. Along any sequence of addPrompt, completePrompt and addWordCount steps
every row keeps its position, id and timestamp; a prompt keeps its text and a
completed flag that was set stays set; a word-count sample is unchanged; no
row and no table disappears. -/
theorem rows_persist (db db1 : DB) (h : Relation.ReflTransGen Step db db1) :
    Persists db db1 := by
  induction h with
  | refl => exact persists_refl db
  | tail _ hstep ih => exact persists_trans _ _ _ ih (step_persists _ _ hstep)

/-- C9 on a concrete run: complete prompt 2 of the sample store, then record a
word count. -/
theorem rows_persist_witness :
    Persists sampleDB
      { prompts := some
          { rows := [ { id := 1, prompt := "a", timestamp := "t1", completed := true },
                      { id := 2, prompt := "b", timestamp := "t2", completed := true } ],
            seq := 2 },
        sessions := some [ { id := 1, wordcount := 100, timestamp := "t3" },
                           { id := 2, wordcount := 523, timestamp := "t4" } ] } :=
  rows_persist _ _
    (Relation.ReflTransGen.tail
      (Relation.ReflTransGen.single (Step.completePrompt sampleDB _ 2 rfl))
      (Step.addWordCount _ _ "t4" 523 rfl))

/-! ## C5: missing or malformed integer parameters -/

theorem valuesGet_absent (vs : List (String × String)) (key : String)
    (h : ∀ kv ∈ vs, kv.1 ≠ key) : valuesGet vs key = "" := by
  have hnone : vs.find? (fun kv => kv.1 == key) = none :=
    List.find?_eq_none.mpr (fun kv hkv => by simpa using h kv hkv)
  simp only [valuesGet, hnone]

theorem atoi_empty : atoi "" = .error .invalid := by decide

/-- C5. If the id query parameter of a request to the complete route is absent
or does not parse with Atoi, the handler answers 400 and does nothing else:
no redirect, store unchanged.  If the wordcount form field of a POST to the
word-count add route is absent or does not parse with Atoi, that handler
answers 400 and does nothing else: no redirect, store unchanged. -/
theorem bad_integer_parameter_is_client_error (tp : Templates) (db : DB) (now : String)
    (rc rw : Request)
    (hid : (∀ kv ∈ rc.query, kv.1 ≠ "id") ∨ ∃ e, atoi (rc.queryGet "id") = .error e)
    (hpost : rw.method = methodPost)
    (hwc : (∀ kv ∈ rw.postForm ++ rw.query, kv.1 ≠ "wordcount") ∨
      ∃ e, atoi (rw.formValue "wordcount") = .error e) :
    (∃ msg, completePromptHandler db rc = ([Effect.httpError msg statusBadRequest], db)) ∧
    (∃ msg, addWordCountHandler tp db now rw =
      ([Effect.httpError msg statusBadRequest], db)) := by
  constructor
  · by_cases hempty : rc.queryGet "id" = ""
    · exact ⟨"Missing ID", by simp only [completePromptHandler, hempty, if_true]⟩
    · rcases hid with habs | ⟨e, he⟩
      · exact absurd (valuesGet_absent rc.query "id" habs) hempty
      · exact ⟨"Invalid ID", by simp only [completePromptHandler, hempty, if_false, he]⟩
  · have herr : ∃ e, atoi (rw.formValue "wordcount") = .error e := by
      rcases hwc with habs | h
      · refine ⟨.invalid, ?_⟩
        have : rw.formValue "wordcount" = "" := valuesGet_absent _ _ habs
        rw [this]
        exact atoi_empty
      · exact h
    obtain ⟨e, he⟩ := herr
    exact ⟨"Invalid word count: " ++ e.text (rw.formValue "wordcount"),
      by simp only [addWordCountHandler, hpost, if_true, he]⟩

/-- C5 at concrete requests: /complete?id=abc and a POST with wordcount=12x. -/
theorem bad_integer_parameter_is_client_error_witness :
    (∃ msg, completePromptHandler sampleDB (getOf "id" "abc") =
      ([Effect.httpError msg statusBadRequest], sampleDB)) ∧
    (∃ msg, addWordCountHandler okTemplates sampleDB "t4" (postOf "wordcount" "12x") =
      ([Effect.httpError msg statusBadRequest], sampleDB)) :=
  bad_integer_parameter_is_client_error okTemplates sampleDB "t4"
    (getOf "id" "abc") (postOf "wordcount" "12x")
    (Or.inr ⟨.invalid, by decide⟩) rfl (Or.inr ⟨.invalid, by decide⟩)

/-! ## C6: record a word count, then list -/

/-- C6. On a store whose writing-session table exists, a POST to the word-count
add route whose wordcount field parses with Atoi as n answers with a redirect
to /words and nothing else, and the listing that follows is the old listing
with one sample of word count n appended; in particular it contains a sample
whose word count is n. -/
theorem addWordCountHandler_post_then_list (tp : Templates) (db : DB)
    (rows : List SessionRow) (now s : String) (n : Int) (r : Request)
    (hpost : r.method = methodPost) (hform : r.formValue "wordcount" = s)
    (hparse : atoi s = .ok n) (hs : db.sessions = some rows) :
    ∃ (db1 : DB) (newId : Int) (old : List Words),
      addWordCountHandler tp db now r = ([Effect.redirect "/words" statusSeeOther], db1) ∧
      getWordCount db = .ok old ∧
      getWordCount db1 = .ok (old ++ [{ ID := newId, WordCount := n, Timestamp := now }]) ∧
      (∃ ws, getWordCount db1 = .ok ws ∧ ∃ w ∈ ws, w.WordCount = n) := by
  refine ⟨DB.mk db.prompts (some (rows ++
      [SessionRow.mk (maxRowid (rows.map SessionRow.id) + 1) n now])),
    maxRowid (rows.map SessionRow.id) + 1, rows.map SessionRow.scan, ?_, ?_, ?_, ?_⟩
  · simp only [addWordCountHandler, hpost, if_true, hform, hparse, addWordCount, hs]
  · simp only [getWordCount, hs]
  · simp [getWordCount, SessionRow.scan]
  · refine ⟨_, rfl, ⟨(maxRowid (rows.map SessionRow.id) + 1), n, now⟩, ?_, rfl⟩
    simp [SessionRow.scan]

/-- C6 at the value named by the spec: wordcount = "523" on the sample store. -/
theorem addWordCountHandler_post_then_list_witness :
    ∃ (db1 : DB) (newId : Int) (old : List Words),
      addWordCountHandler okTemplates sampleDB "t4" (postOf "wordcount" "523") =
        ([Effect.redirect "/words" statusSeeOther], db1) ∧
      getWordCount sampleDB = .ok old ∧
      getWordCount db1 = .ok (old ++ [{ ID := newId, WordCount := 523, Timestamp := "t4" }]) ∧
      (∃ ws, getWordCount db1 = .ok ws ∧ ∃ w ∈ ws, w.WordCount = 523) :=
  addWordCountHandler_post_then_list okTemplates sampleDB
    [ { id := 1, wordcount := 100, timestamp := "t3" } ] "t4" "523" 523
    (postOf "wordcount" "523") rfl (by decide) (by decide) rfl

/-! ## C7: schema creation at startup -/

/-- C7, as stated, fails: on an empty database file initDB succeeds and leaves
the writing-session table absent, so that addWordCount and getWordCount are
refused on the store it returns. -/
theorem initDB_leaves_sessions_absent :
    ∃ db1, initDB DB.empty = .ok db1 ∧ db1.sessions = none ∧
      addWordCount db1 "t1" 523 = .error "no such table: WritingSession" ∧
      getWordCount db1 = .error "no such table: WritingSession" :=
  ⟨{ prompts := some { rows := [], seq := 0 }, sessions := none }, by decide⟩

/-- C7 (amended). From any store initDB returns no error and a store in which
the prompts table exists, with the rows of both tables and the presence of the
writing-session table as they were; on a store where the prompts table already
exists it returns that very store; and running it a second time changes nothing. -/
theorem initDB_creates_prompts_idempotent (db : DB) :
    (∃ (db1 : DB) (t1 : PromptsTable), initDB db = .ok db1 ∧ db1.prompts = some t1 ∧
      db1.promptRows = db.promptRows ∧ db1.sessions = db.sessions ∧
      initDB db1 = .ok db1) ∧
    (∀ t, db.prompts = some t → initDB db = .ok db) := by
  cases hp : db.prompts with
  | none =>
    refine ⟨⟨{ db with prompts := some { rows := [], seq := 0 } }, { rows := [], seq := 0 },
      ?_, rfl, ?_, rfl, rfl⟩, fun t ht => by cases ht⟩
    · simp only [initDB, hp]
    · simp [DB.promptRows, hp]
  | some t =>
    have h : initDB db = .ok db := by simp only [initDB, hp]
    exact ⟨⟨db, t, h, hp, rfl, rfl, h⟩, fun _ _ => h⟩

/-- C7 (amended) at concrete stores: the empty file and the sample store. -/
theorem initDB_creates_prompts_idempotent_witness :
    (∃ (db1 : DB) (t1 : PromptsTable), initDB DB.empty = .ok db1 ∧ db1.prompts = some t1 ∧
      db1.promptRows = DB.empty.promptRows ∧ db1.sessions = DB.empty.sessions ∧
      initDB db1 = .ok db1) ∧
    initDB sampleDB = .ok sampleDB :=
  ⟨(initDB_creates_prompts_idempotent DB.empty).1,
    (initDB_creates_prompts_idempotent sampleDB).2 _ rfl⟩

/-! ## C8: storage and template failures -/

/-- C8, as stated, fails in two ways.  When rendering fails, no handler
reports it: the listing handler executes the template and answers nothing
else, although `render` returns an error.  And when the form template of
either add route cannot be loaded, the handler reports the error and then goes
on to execute the (nil) template. -/
theorem template_failure_not_aborting :
    brokenTemplates.render "templates/view_prompts.html"
        (.prompts [{ ID := 2, Prompt := "b", Timestamp := "t2" }]) =
      some "template: render failed" ∧
    viewPromptsHandler brokenTemplates sampleDB (getOf "x" "y") =
      ([Effect.execute "templates/view_prompts.html"
          (.prompts [{ ID := 2, Prompt := "b", Timestamp := "t2" }])], sampleDB) ∧
    missingTemplates.parseFiles "templates/add_prompt.html" =
      some "open templates/add_prompt.html: no such file or directory" ∧
    addPromptHandler missingTemplates sampleDB "t9" (getOf "x" "y") =
      ([Effect.httpError "open templates/add_prompt.html: no such file or directory"
          statusInternalServerError,
        Effect.executeNil .none], sampleDB) ∧
    addWordCountHandler missingTemplates sampleDB "t9" (getOf "x" "y") =
      ([Effect.httpError "open templates/word_count.html: no such file or directory"
          statusInternalServerError,
        Effect.executeNil .none], sampleDB) := by
  decide

/-- C8 (amended). (1) In each of the six handlers, when the storage call fails
with error e the handler answers 500 with a body ending in e and does nothing
else; the store is unchanged.  (2) In the three listing handlers, when the
template cannot be loaded and ParseFiles fails with e, the handler answers 500
with body e and does not execute the template.  (3) The outcome of rendering
has no influence on what any handler does. -/
theorem failures_answer_500 (tp tp1 : Templates) (db : DB) (now : String) (r : Request)
    (e : String) :
    (r.method = methodPost → addPrompt db now (r.formValue "prompt") = .error e →
      addPromptHandler tp db now r =
        ([Effect.httpError ("Could not save prompt: " ++ e) statusInternalServerError], db)) ∧
    (getUncompletedPrompts db = .error e →
      viewPromptsHandler tp db r =
        ([Effect.httpError ("Could not retrieve prompts: " ++ e)
          statusInternalServerError], db)) ∧
    (∀ id, r.queryGet "id" ≠ "" → atoi (r.queryGet "id") = .ok id →
      completePrompt db id = .error e →
      completePromptHandler db r =
        ([Effect.httpError ("Could not mark prompt as completed: " ++ e)
          statusInternalServerError], db)) ∧
    (getCompletedPrompts db = .error e →
      viewCompletedPromptsHandler tp db r =
        ([Effect.httpError ("Could not retrieve completed prompts: " ++ e)
          statusInternalServerError], db)) ∧
    (∀ n, r.method = methodPost → atoi (r.formValue "wordcount") = .ok n →
      addWordCount db now n = .error e →
      addWordCountHandler tp db now r =
        ([Effect.httpError ("Could not save wordcount: " ++ e)
          statusInternalServerError], db)) ∧
    (getWordCount db = .error e →
      viewWordCountHandler tp db r =
        ([Effect.httpError ("Could not retrieve word count: " ++ e)
          statusInternalServerError], db)) ∧
    (∀ ps, getUncompletedPrompts db = .ok ps →
      tp.parseFiles "templates/view_prompts.html" = some e →
      viewPromptsHandler tp db r = ([Effect.httpError e statusInternalServerError], db)) ∧
    (∀ ps, getCompletedPrompts db = .ok ps →
      tp.parseFiles "templates/view_completed_prompts.html" = some e →
      viewCompletedPromptsHandler tp db r =
        ([Effect.httpError e statusInternalServerError], db)) ∧
    (∀ ws, getWordCount db = .ok ws →
      tp.parseFiles "templates/word_count.html" = some e →
      viewWordCountHandler tp db r = ([Effect.httpError e statusInternalServerError], db)) ∧
    (tp.parseFiles = tp1.parseFiles →
      addPromptHandler tp db now r = addPromptHandler tp1 db now r ∧
      viewPromptsHandler tp db r = viewPromptsHandler tp1 db r ∧
      viewCompletedPromptsHandler tp db r = viewCompletedPromptsHandler tp1 db r ∧
      addWordCountHandler tp db now r = addWordCountHandler tp1 db now r ∧
      viewWordCountHandler tp db r = viewWordCountHandler tp1 db r) := by
  refine ⟨?_, ?_, ?_, ?_, ?_, ?_, ?_, ?_, ?_, ?_⟩
  · intro hpost h
    simp only [addPromptHandler, hpost, if_true, h]
  · intro h
    simp only [viewPromptsHandler, h]
  · intro id hne hid h
    simp only [completePromptHandler, hne, if_false, hid, h]
  · intro h
    simp only [viewCompletedPromptsHandler, h]
  · intro n hpost hn h
    simp only [addWordCountHandler, hpost, if_true, hn, h]
  · intro h
    simp only [viewWordCountHandler, h]
  · intro ps hps h
    simp only [viewPromptsHandler, hps, h]
  · intro ps hps h
    simp only [viewCompletedPromptsHandler, hps, h]
  · intro ws hws h
    simp only [viewWordCountHandler, hws, h]
  · intro h
    simp only [addPromptHandler, viewPromptsHandler, viewCompletedPromptsHandler,
      addWordCountHandler, viewWordCountHandler, h, and_self]

/-- C8 (amended) at concrete inputs: storage failures on a file without tables,
load failures on the sample store with no template file present, and two
template sets that differ only in whether rendering fails. -/
theorem failures_answer_500_witness :
    addPromptHandler okTemplates DB.empty "t9" (postOf "prompt" "p") =
      ([Effect.httpError "Could not save prompt: no such table: prompts"
        statusInternalServerError], DB.empty) ∧
    viewPromptsHandler okTemplates DB.empty (postOf "prompt" "p") =
      ([Effect.httpError "Could not retrieve prompts: no such table: prompts"
        statusInternalServerError], DB.empty) ∧
    completePromptHandler DB.empty (getOf "id" "5") =
      ([Effect.httpError "Could not mark prompt as completed: no such table: prompts"
        statusInternalServerError], DB.empty) ∧
    addWordCountHandler okTemplates DB.empty "t9" (postOf "wordcount" "523") =
      ([Effect.httpError "Could not save wordcount: no such table: WritingSession"
        statusInternalServerError], DB.empty) ∧
    viewPromptsHandler missingTemplates sampleDB (getOf "x" "y") =
      ([Effect.httpError "open templates/view_prompts.html: no such file or directory"
        statusInternalServerError], sampleDB) ∧
    viewWordCountHandler okTemplates sampleDB (getOf "x" "y") =
      viewWordCountHandler brokenTemplates sampleDB (getOf "x" "y") :=
  ⟨(failures_answer_500 okTemplates okTemplates DB.empty "t9" (postOf "prompt" "p")
      "no such table: prompts").1 rfl rfl,
    (failures_answer_500 okTemplates okTemplates DB.empty "t9" (postOf "prompt" "p")
      "no such table: prompts").2.1 rfl,
    (failures_answer_500 okTemplates okTemplates DB.empty "t9" (getOf "id" "5")
      "no such table: prompts").2.2.1 5 (by decide) (by decide) rfl,
    (failures_answer_500 okTemplates okTemplates DB.empty "t9" (postOf "wordcount" "523")
      "no such table: WritingSession").2.2.2.2.1 523 rfl (by decide) rfl,
    (failures_answer_500 missingTemplates missingTemplates sampleDB "t9" (getOf "x" "y")
      "open templates/view_prompts.html: no such file or directory").2.2.2.2.2.2.1
        _ rfl rfl,
    ((failures_answer_500 okTemplates brokenTemplates sampleDB "t9" (getOf "x" "y")
      "").2.2.2.2.2.2.2.2.2 rfl).2.2.2.2⟩

/-! ## C10: which word counts are accepted -/

theorem foldl_digits_ge (ds : List Char) (n : Nat) :
    n ≤ ds.foldl (fun n c => n * 10 + digitVal c) n := by
  induction ds generalizing n with
  | nil => exact le_refl n
  | cons c cs ih =>
    have h := ih (n * 10 + digitVal c)
    simp only [List.foldl_cons]
    omega

theorem atoiFastLoop_digits (ds : List Char) (n : Nat) (h : ∀ c ∈ ds, isDigit c = true) :
    atoiFastLoop ds n = .ok (ds.foldl (fun n c => n * 10 + digitVal c) n) := by
  induction ds generalizing n with
  | nil => rfl
  | cons c cs ih =>
    simp only [atoiFastLoop, h c (List.mem_cons_self c cs), if_true, List.foldl_cons]
    exact ih _ (fun d hd => h d (List.mem_cons_of_mem c hd))

theorem maxUint64_eq : maxUint64 = 18446744073709551615 := by decide

theorem parseUintLoop_digits (ds : List Char) (n : Nat) (h : ∀ c ∈ ds, isDigit c = true)
    (hb : ds.foldl (fun n c => n * 10 + digitVal c) n ≤ maxUint64) :
    parseUintLoop ds n = .ok (ds.foldl (fun n c => n * 10 + digitVal c) n) := by
  induction ds generalizing n with
  | nil => rfl
  | cons c cs ih =>
    simp only [List.foldl_cons] at hb ⊢
    have hge := foldl_digits_ge cs (n * 10 + digitVal c)
    have h1 : ¬ (n ≥ maxUint64 / 10 + 1) := by
      rw [maxUint64_eq] at hb ⊢
      omega
    have h2 : ¬ (n * 10 + digitVal c > maxUint64) := by omega
    simp only [parseUintLoop, h c (List.mem_cons_self c cs), if_true, h1, h2, if_false]
    exact ih _ (fun d hd => h d (List.mem_cons_of_mem c hd)) hb

theorem allDigits_spec (ds : List Char) (h : allDigits ds = true) :
    ds ≠ [] ∧ ∀ c ∈ ds, isDigit c = true := by
  unfold allDigits at h
  simp only [Bool.and_eq_true, Bool.not_eq_true', List.all_eq_true] at h
  refine ⟨?_, h.2⟩
  intro hnil
  rw [hnil] at h
  simp at h

theorem parseUint_digits (ds : List Char) (h : allDigits ds = true)
    (hb : digitsValue ds ≤ maxUint64) : parseUint ds = .ok (digitsValue ds) := by
  obtain ⟨hne, hd⟩ := allDigits_spec ds h
  cases ds with
  | nil => exact absurd rfl hne
  | cons c cs => exact parseUintLoop_digits (c :: cs) 0 hd hb

theorem atoiFast_literal (l : List Char) (hlit : isDecimalLiteral l = true) :
    atoiFast l = .ok (literalValue l) := by
  cases l with
  | nil => simp [isDecimalLiteral] at hlit
  | cons c cs =>
    by_cases hminus : c = '-'
    · subst hminus
      simp only [isDecimalLiteral] at hlit
      have hcs : allDigits cs = true := by simpa using hlit
      obtain ⟨hne, hd⟩ := allDigits_spec cs hcs
      have hemp : cs.isEmpty = false := by cases cs <;> simp_all
      simp [atoiFast, literalValue, hemp, atoiFastLoop_digits cs 0 hd, digitsValue]
    · by_cases hplus : c = '+'
      · subst hplus
        simp only [isDecimalLiteral] at hlit
        have hcs : allDigits cs = true := by simpa using hlit
        obtain ⟨hne, hd⟩ := allDigits_spec cs hcs
        have hemp : cs.isEmpty = false := by cases cs <;> simp_all
        simp [atoiFast, literalValue, hemp, atoiFastLoop_digits cs 0 hd, digitsValue]
      · have hall : allDigits (c :: cs) = true := by
          simpa [isDecimalLiteral, hminus, hplus] using hlit
        obtain ⟨_, hd⟩ := allDigits_spec (c :: cs) hall
        simp [atoiFast, literalValue, hminus, hplus, atoiFastLoop_digits (c :: cs) 0 hd,
          digitsValue]

theorem parseInt_literal (l : List Char) (hlit : isDecimalLiteral l = true)
    (hlo : -(2 ^ 63 : Int) ≤ literalValue l) (hhi : literalValue l < (2 ^ 63 : Int)) :
    parseInt l = .ok (literalValue l) := by
  cases l with
  | nil => simp [isDecimalLiteral] at hlit
  | cons c cs =>
    by_cases hminus : c = '-'
    · subst hminus
      simp only [isDecimalLiteral] at hlit
      have hcs : allDigits cs = true := by simpa using hlit
      have hv : literalValue ('-' :: cs) = -(digitsValue cs : Int) := by simp [literalValue]
      rw [hv] at hlo ⊢
      have hb : digitsValue cs ≤ 9223372036854775808 := by omega
      have hb1 : digitsValue cs ≤ maxUint64 := by rw [maxUint64_eq]; omega
      simp [parseInt, parseUint_digits cs hcs hb1, intSize, hb]
    · by_cases hplus : c = '+'
      · subst hplus
        simp only [isDecimalLiteral] at hlit
        have hcs : allDigits cs = true := by simpa using hlit
        have hv : literalValue ('+' :: cs) = (digitsValue cs : Int) := by simp [literalValue]
        rw [hv] at hhi ⊢
        have hb : digitsValue cs < 9223372036854775808 := by omega
        have hb1 : digitsValue cs ≤ maxUint64 := by rw [maxUint64_eq]; omega
        simp [parseInt, parseUint_digits cs hcs hb1, intSize, hb]
      · have hall : allDigits (c :: cs) = true := by
          simpa [isDecimalLiteral, hminus, hplus] using hlit
        have hv : literalValue (c :: cs) = (digitsValue (c :: cs) : Int) := by
          simp [literalValue, hminus, hplus]
        rw [hv] at hhi ⊢
        have hb : digitsValue (c :: cs) < 9223372036854775808 := by omega
        have hb1 : digitsValue (c :: cs) ≤ maxUint64 := by rw [maxUint64_eq]; omega
        simp [parseInt, parseUint_digits (c :: cs) hall hb1, intSize, hb, hminus, hplus]

/-- Atoi accepts every decimal integer literal whose value fits a 64-bit int,
and returns that value. -/
theorem atoi_literal (s : String) (hlit : isDecimalLiteral s.toList = true)
    (hlo : -(2 ^ 63 : Int) ≤ literalValue s.toList)
    (hhi : literalValue s.toList < (2 ^ 63 : Int)) :
    atoi s = .ok (literalValue s.toList) := by
  unfold atoi
  split
  · exact atoiFast_literal _ hlit
  · exact parseInt_literal _ hlit hlo hhi

/-- C10, as stated, fails in two ways.  The form value 9223372036854775808 is a
decimal integer literal, yet Atoi rejects it as out of range: the handler
answers 400 and inserts nothing.  And on the store initDB leaves behind on a
new file the literal 523 is accepted by Atoi but no sample is inserted,
because the writing-session table is absent. -/
theorem addWordCountHandler_rejects_literal :
    isDecimalLiteral "9223372036854775808".toList = true ∧
    literalValue "9223372036854775808".toList = 9223372036854775808 ∧
    addWordCountHandler okTemplates sampleDB "t4"
        (postOf "wordcount" "9223372036854775808") =
      ([Effect.httpError
          "Invalid word count: strconv.Atoi: parsing \"9223372036854775808\": value out of range"
          statusBadRequest], sampleDB) ∧
    isDecimalLiteral "523".toList = true ∧
    initDB DB.empty = .ok { prompts := some { rows := [], seq := 0 }, sessions := none } ∧
    addWordCountHandler okTemplates
        { prompts := some { rows := [], seq := 0 }, sessions := none } "t4"
        (postOf "wordcount" "523") =
      ([Effect.httpError "Could not save wordcount: no such table: WritingSession"
          statusInternalServerError],
        { prompts := some { rows := [], seq := 0 }, sessions := none }) := by
  decide

/-- C10 (amended). On a store whose writing-session table exists, a POST to the
word-count add route whose wordcount field is a decimal integer literal with a
value in the range of a 64-bit int (from -2^63 to 2^63 - 1) is not answered
with a client error: the handler answers with a redirect to /words only, and
the table gains exactly one row, whose word count is that integer. -/
theorem addWordCountHandler_accepts_int64_literal (tp : Templates) (db : DB)
    (rows : List SessionRow) (now s : String) (r : Request)
    (hpost : r.method = methodPost) (hform : r.formValue "wordcount" = s)
    (hlit : isDecimalLiteral s.toList = true)
    (hlo : -(2 ^ 63 : Int) ≤ literalValue s.toList)
    (hhi : literalValue s.toList < (2 ^ 63 : Int))
    (hs : db.sessions = some rows) :
    ∃ (db1 : DB) (newId : Int),
      addWordCountHandler tp db now r = ([Effect.redirect "/words" statusSeeOther], db1) ∧
      db1.sessionRows = db.sessionRows ++
        [{ id := newId, wordcount := literalValue s.toList, timestamp := now }] ∧
      db1.prompts = db.prompts := by
  have hparse := atoi_literal s hlit hlo hhi
  refine ⟨DB.mk db.prompts (some (rows ++
      [SessionRow.mk (maxRowid (rows.map SessionRow.id) + 1) (literalValue s.toList) now])),
    maxRowid (rows.map SessionRow.id) + 1, ?_, ?_, rfl⟩
  · simp only [addWordCountHandler, hpost, if_true, hform, hparse, addWordCount, hs]
  · simp [DB.sessionRows, hs]

/-- C10 (amended) at the lower end of the range: the smallest 64-bit int,
posted to the sample store. -/
theorem addWordCountHandler_accepts_int64_literal_witness :
    ∃ (db1 : DB) (newId : Int),
      addWordCountHandler okTemplates sampleDB "t4"
          (postOf "wordcount" "-9223372036854775808") =
        ([Effect.redirect "/words" statusSeeOther], db1) ∧
      db1.sessionRows = sampleDB.sessionRows ++
        [{ id := newId, wordcount := literalValue "-9223372036854775808".toList,
           timestamp := "t4" }] ∧
      db1.prompts = sampleDB.prompts :=
  addWordCountHandler_accepts_int64_literal okTemplates sampleDB
    [ { id := 1, wordcount := 100, timestamp := "t3" } ] "t4" "-9223372036854775808"
    (postOf "wordcount" "-9223372036854775808") rfl (by decide) (by decide) (by decide)
    (by decide) rfl

end Chainsaw
